import Mathlib

/-!
# Lumeo — verification of the player reducer and the Saavn API client

Shallow embedding of the two core components of the Lumeo music front end:

* the pure player state reducer `musicPlayerReducer` from
  `MusicPlayerContext` (source file `src/unnamed/part_002`), and
* the request/retry/error pipeline of `SaavnApiService`
  (source file `src/unnamed/part_003`) together with the error taxonomy
  of `src/types/errors.ts`.

JavaScript conventions are embedded explicitly: a value that may be
`null`/`undefined` becomes an `Option`, array indexing out of range yields
`none`, and the `undefined`/`NaN` index that arises in the shuffle branch is
modelled by `none` in an `Option Int`.
-/

/-- A track record.  The source `Song` type (`src/types/saavn.ts`) carries many
metadata fields; the reducer only ever inspects object identity and the `id`
field (`findIndex(song => song.id === previousSong.id)`), so the embedding
keeps `id` plus a representative `name` field. -/
structure Song where
  id : String
  name : String
deriving DecidableEq, Repr

/-- The `'none' | 'one' | 'all'` repeat mode union type. -/
inductive RepeatMode where
  | none
  | one
  | all
deriving DecidableEq, Repr

/-- The `MusicPlayerState` interface.  `currentIndex` is a JS number that can
also become `undefined`/`NaN` after the shuffle branch picks from an empty
candidate list, hence `Option Int` with `Option.none` standing for
`undefined`/`NaN`. -/
structure MusicPlayerState where
  currentSong : Option Song
  playlist : List Song
  currentIndex : Option Int
  isPlaying : Bool
  queue : List Song
  history : List Song
  «repeat» : RepeatMode
  shuffle : Bool
deriving DecidableEq, Repr

/-- The `MusicPlayerAction` tagged union.  Optional payload members
(`playlist?`, `index?`, `currentIndex?`) become `Option`s.  The `NEXT_SONG`
shuffle branch consumes one draw from `Math.random()`; the reducer embedding
takes that draw as an explicit `Nat` argument `r` (see `musicPlayerReducer`). -/
inductive MusicPlayerAction where
  | setCurrentSong (song : Song) (playlist : Option (List Song)) (index : Option Int)
  | setPlaylist (playlist : List Song) (currentIndex : Option Int)
  | nextSong
  | previousSong
  | setPlaying (b : Bool)
  | addToQueue (song : Song)
  | removeFromQueue (index : Int)
  | clearQueue
  | setRepeat (mode : RepeatMode)
  | toggleShuffle
  | clearPlayer
deriving DecidableEq, Repr

/-- The `initialState` constant. -/
def initialState : MusicPlayerState :=
  { currentSong := none
    playlist := []
    currentIndex := some (-1)
    isPlaying := false
    queue := []
    history := []
    «repeat» := RepeatMode.none
    shuffle := false }

/-- JS array indexing `l[i]` where `i` is a number or `undefined`/`NaN`:
out-of-range, negative, and undefined indices all yield `undefined`
(embedded as `none`), matching `state.playlist[nextIndex] || null`. -/
def jsIndex {α : Type} (l : List α) (i : Option Int) : Option α :=
  match i with
  | none => none
  | some n => if n < 0 then none else l.get? n.toNat

/-- JS `i + 1` on a number-or-`undefined`: `undefined + 1` is `NaN`
(still `none`). -/
def jsSucc (i : Option Int) : Option Int :=
  match i with
  | none => none
  | some n => some (n + 1)

/-- JS `i - 1` on a number-or-`undefined`: `undefined - 1` is `NaN`. -/
def jsPred (i : Option Int) : Option Int :=
  match i with
  | none => none
  | some n => some (n - 1)

/-- JS `i >= len` where `i` may be `NaN` (`NaN >= len` is `false`). -/
def jsGE (i : Option Int) (len : Nat) : Bool :=
  match i with
  | none => false
  | some n => (len : Int) ≤ n

/-- JS `i < 0` where `i` may be `NaN` (`NaN < 0` is `false`). -/
def jsLT0 (i : Option Int) : Bool :=
  match i with
  | none => false
  | some n => n < 0

/-- `history.slice(-49)`: the last at-most-49 elements. -/
def sliceNeg49 (l : List Song) : List Song :=
  l.drop (l.length - 49)

/-- The history update `state.currentSong ? [...state.history.slice(-49),
state.currentSong] : state.history` that `NEXT_SONG` performs. -/
def historyPush (s : MusicPlayerState) : List Song :=
  match s.currentSong with
  | some c => sliceNeg49 s.history ++ [c]
  | none => s.history

/-- `availableIndices = state.playlist.map((_, i) => i).filter(i => i !==
state.currentIndex)`.  When `currentIndex` is `undefined`/`NaN`, every index
passes the strict-inequality filter. -/
def availableIndices (s : MusicPlayerState) : List Nat :=
  (List.range s.playlist.length).filter (fun i => decide (s.currentIndex ≠ some (i : Int)))

/-- `availableIndices[Math.floor(Math.random() * availableIndices.length)]`:
the random draw is embedded as `r : Nat`, reduced modulo the candidate count;
an empty candidate list yields `undefined` (`none`), exactly as indexing an
empty JS array does. -/
def shufflePick (s : MusicPlayerState) (r : Nat) : Option Int :=
  ((availableIndices s).get? (r % (availableIndices s).length)).map (fun n => (n : Int))

/-- The `musicPlayerReducer` switch, embedded case by case from the source.
`r` is the draw consumed by `Math.random()` in the `NEXT_SONG` shuffle
branch; every other case ignores it. -/
def musicPlayerReducer (s : MusicPlayerState) (a : MusicPlayerAction) (r : Nat) :
    MusicPlayerState :=
  match a with
  | .setCurrentSong song playlist index =>
    let newHistory :=
      match s.currentSong with
      | some c => if s.history.contains c then s.history else sliceNeg49 s.history ++ [c]
      | none => s.history
    { s with
      currentSong := some song
      playlist := playlist.getD s.playlist
      currentIndex := match index with | some n => some n | none => s.currentIndex
      history := newHistory }
  | .setPlaylist playlist currentIndex =>
    { s with
      playlist := playlist
      currentIndex := some (currentIndex.getD 0)
      currentSong := jsIndex playlist (some (currentIndex.getD 0)) }
  | .nextSong =>
    match s.queue with
    | nextInQueue :: rest =>
      { s with
        currentSong := some nextInQueue
        queue := rest
        history := historyPush s }
    | [] =>
      if s.«repeat» = RepeatMode.one then s
      else if s.shuffle then
        let nextIndex := shufflePick s r
        { s with
          currentIndex := nextIndex
          currentSong := jsIndex s.playlist nextIndex
          history := historyPush s }
      else
        let nextIndex := jsSucc s.currentIndex
        if jsGE nextIndex s.playlist.length then
          if s.«repeat» = RepeatMode.all then
            { s with
              currentIndex := some 0
              currentSong := jsIndex s.playlist (some 0)
              history := historyPush s }
          else { s with isPlaying := false }
        else
          { s with
            currentIndex := nextIndex
            currentSong := jsIndex s.playlist nextIndex
            history := historyPush s }
  | .previousSong =>
    match s.history.getLast? with
    | some previousSong =>
      let previousIndex : Int :=
        ((s.playlist.findIdx? (fun song => song.id == previousSong.id)).map
          (fun n => (n : Int))).getD (-1)
      let newIndex : Option Int :=
        if previousIndex = (-1 : Int) then s.currentIndex else some previousIndex
      { s with
        currentSong := some previousSong
        currentIndex := newIndex
        history := s.history.dropLast }
    | none =>
      let prevIndex := jsPred s.currentIndex
      if jsLT0 prevIndex then
        if s.«repeat» = RepeatMode.all then
          { s with
            currentIndex := some ((s.playlist.length : Int) - 1)
            currentSong := jsIndex s.playlist (some ((s.playlist.length : Int) - 1)) }
        else s
      else
        { s with
          currentIndex := prevIndex
          currentSong := jsIndex s.playlist prevIndex }
  | .setPlaying b => { s with isPlaying := b }
  | .addToQueue song => { s with queue := s.queue ++ [song] }
  | .removeFromQueue k =>
    { s with queue := (s.queue.enum.filter (fun p => decide ((p.1 : Int) ≠ k))).map Prod.snd }
  | .clearQueue => { s with queue := [] }
  | .setRepeat mode => { s with «repeat» := mode }
  | .toggleShuffle => { s with shuffle := !s.shuffle }
  | .clearPlayer => initialState

/-! ## Error taxonomy (`src/types/errors.ts`)

Each error class is a constructor carrying the fields the code stores.
`jsError` stands for a plain JavaScript `Error` (its `name` and `message`),
which is how the fetch layer reports aborts (`name = "AbortError"`) and
transport failures (a `TypeError`). -/

/-- The error classes of `src/types/errors.ts` plus plain JS errors.
`networkError` wraps an optional original error, identified here by its
message (which is also what `BaseError` records in the error's context as
`{originalError: originalError?.message}`); `apiResponseError` carries the
HTTP status code and the parsed error body (kept abstract as a string);
`saavnApiError` carries the operation name and the wrapped cause's message
(the `error: error.message` entry of its context object). -/
inductive AppError where
  | validationError (message : String)
  | networkError (message : String) (originalErrorMessage : Option String)
  | apiResponseError (message : String) (statusCode : Nat) (responseData : Option String)
  | saavnApiError (message : String) (operation : String) (contextErrorMessage : Option String)
  | jsError (name : String) (message : String)
deriving DecidableEq, Repr

/-- The `message` property of an error (`Error.message`). -/
def errMessage : AppError → String
  | .validationError m => m
  | .networkError m _ => m
  | .apiResponseError m _ _ => m
  | .saavnApiError m _ _ => m
  | .jsError _ m => m

/-- `getUserMessage()` of each error class, from `src/types/errors.ts`.
For a plain JS `Error` (not a `BaseError`) the UI hook layer
(`useApiCall` in the hooks file) falls back to `error.message`, which is what
the `jsError` case returns. -/
def getUserMessage : AppError → String
  | .validationError m => m
  | .networkError _ _ => "Network error. Please check your connection and try again."
  | .apiResponseError _ s _ =>
    if s = 404 then "Content not found. Please check your search terms."
    else if s = 429 then "Too many requests. Please wait a moment and try again."
    else if 500 ≤ s then "Server error. Please try again later."
    else "Request failed. Please try again."
  | .saavnApiError _ _ _ => "API request failed. Please try again."
  | .jsError _ m => m

/-! ## API client (`SaavnApiService`) -/

/-- The `SaavnApiConfig` interface (durations in milliseconds). -/
structure SaavnApiConfig where
  baseUrl : String
  timeout : Nat
  maxRetries : Nat
  retryDelay : Nat
  userAgent : String
  rateLimitDelay : Nat
deriving DecidableEq, Repr

/-- `DEFAULT_CONFIG` (production `baseUrl`). -/
def DEFAULT_CONFIG : SaavnApiConfig :=
  { baseUrl := "/api"
    timeout := 10000
    maxRetries := 3
    retryDelay := 1000
    userAgent := "Lumeo-Music-App/2.0.0"
    rateLimitDelay := 100 }

/-- What one `fetch` attempt inside `makeRequest` can come back with.  The
environment (network + upstream server) is a function from the attempt number
to one of these outcomes:
* `success body` — a 2xx (`response.ok`) response whose non-empty text parses
  as JSON (the parsed value kept abstract as the body string);
* `httpError status errorBody` — `!response.ok`, with
  `safelyParseErrorResponse`'s result;
* `emptyBody status` — an ok response with empty text;
* `invalidJson status parseError` — an ok response whose text fails
  `JSON.parse`;
* `abortTimeout` — the attempt's timeout fired and `fetch` rejected with an
  `AbortError`;
* `connectionFailure message` — `fetch` rejected with a non-abort error
  (connection refused, DNS failure, ...). -/
inductive AttemptOutcome where
  | success (body : String)
  | httpError (status : Nat) (errorBody : Option String)
  | emptyBody (status : Nat)
  | invalidJson (status : Nat) (parseError : String)
  | abortTimeout
  | connectionFailure (message : String)
deriving DecidableEq, Repr

/-- The body of `makeRequest`'s `try` block on one attempt: either the parsed
data or the error the block throws, translated clause by clause from the
source (`HTTP {status}: Request failed`, `Empty response body`,
`Invalid JSON response`). -/
def attemptResult : AttemptOutcome → Except AppError String
  | .success body => .ok body
  | .httpError s b =>
    .error (.apiResponseError ("HTTP " ++ toString s ++ ": Request failed") s b)
  | .emptyBody s => .error (.apiResponseError "Empty response body" s none)
  | .invalidJson s pe => .error (.apiResponseError "Invalid JSON response" s (some pe))
  | .abortTimeout => .error (.jsError "AbortError" "The operation was aborted")
  | .connectionFailure m => .error (.jsError "TypeError" m)

/-- The catch block's first guard: `error instanceof ValidationError ||
(error instanceof ApiResponseError && error.statusCode >= 400 &&
error.statusCode < 500)` — these are rethrown, never retried. -/
def isNonRetryableClientError : AppError → Bool
  | .validationError _ => true
  | .apiResponseError _ s _ => decide (400 ≤ s ∧ s < 500)
  | _ => false

/-- The catch block's second guard: `error.name === 'AbortError'`. -/
def isAbortError : AppError → Bool
  | .jsError n _ => n == "AbortError"
  | _ => false

/-- Equality of `Except` values is decidable when it is on both sides. -/
instance {ε α : Type} [DecidableEq ε] [DecidableEq α] : DecidableEq (Except ε α) := fun a b =>
  match a, b with
  | .ok x, .ok y =>
    if h : x = y then .isTrue (by rw [h]) else .isFalse (fun hh => h (Except.ok.inj hh))
  | .ok _, .error _ => .isFalse (fun hh => Except.noConfusion hh)
  | .error _, .ok _ => .isFalse (fun hh => Except.noConfusion hh)
  | .error x, .error y =>
    if h : x = y then .isTrue (by rw [h]) else .isFalse (fun hh => h (Except.error.inj hh))

/-- The observable outcome of one whole `makeRequest` call: its terminal
result, how many fetch attempts were made, and the backoff delays slept
between attempts (in order). -/
structure CallTrace where
  result : Except AppError String
  attempts : Nat
  delays : List Nat
deriving DecidableEq, Repr

/-- The final `throw new NetworkError(...)` after the retry loop exits,
wrapping `lastError` (identified by its message). -/
def exhaustedError (cfg : SaavnApiConfig) (lastError : Option AppError) : AppError :=
  .networkError
    ("Failed to complete request after " ++ toString (cfg.maxRetries + 1) ++ " attempts")
    (lastError.map errMessage)

/-- The retry loop of `makeRequest` (`for attempt = 0; attempt <= maxRetries`).
`fuel` only forces termination; it starts at `maxRetries + 1` and the loop
recurses only while `attempt < maxRetries`, so the `fuel = 0` case (which
replays the post-loop throw) is never reached from `makeRequest`.
On each attempt:
* success returns the parsed data;
* a `ValidationError` or 4xx `ApiResponseError` is rethrown at once;
* an `AbortError` (timeout) is rethrown at once as
  `NetworkError "Request timeout"`;
* any other failure sleeps `retryDelay * 2 ^ attempt` and retries while
  attempts remain, and otherwise falls out of the loop into the terminal
  `NetworkError`. -/
def makeRequestLoop (cfg : SaavnApiConfig) (env : Nat → AttemptOutcome) :
    Nat → Nat → Option AppError → List Nat → CallTrace
  | attempt, 0, lastError, delays =>
    { result := .error (exhaustedError cfg lastError), attempts := attempt, delays := delays }
  | attempt, fuel + 1, _, delays =>
    match attemptResult (env attempt) with
    | .ok body => { result := .ok body, attempts := attempt + 1, delays := delays }
    | .error e =>
      if isNonRetryableClientError e then
        { result := .error e, attempts := attempt + 1, delays := delays }
      else if isAbortError e then
        { result := .error (.networkError "Request timeout" (some (errMessage e)))
          attempts := attempt + 1
          delays := delays }
      else if attempt < cfg.maxRetries then
        makeRequestLoop cfg env (attempt + 1) fuel (some e)
          (delays ++ [cfg.retryDelay * 2 ^ attempt])
      else
        { result := .error (exhaustedError cfg (some e))
          attempts := attempt + 1
          delays := delays }

/-- `makeRequest`: run the retry loop from attempt 0.  The rate-limit wait and
URL construction do not affect the result/attempt/delay observables and are
not modelled; `env` stands for the network's behaviour on each attempt. -/
def makeRequest (cfg : SaavnApiConfig) (env : Nat → AttemptOutcome) : CallTrace :=
  makeRequestLoop cfg env 0 (cfg.maxRetries + 1) none []

/-- JS `String.prototype.trim()`: strip leading and trailing whitespace,
embedded as operations on the character list. -/
def jsTrim (s : String) : String :=
  String.mk
    (((s.data.dropWhile fun c => c.isWhitespace).reverse.dropWhile
      fun c => c.isWhitespace).reverse)

/-- `validateAndSanitizeQuery`: empty, whitespace-only, and over-100-character
(post-trim) queries throw `ValidationError` with the source's messages.  The
final `encodeURIComponent` is an injective transport encoding that no claim
inspects; the embedding returns the trimmed query. -/
def validateAndSanitizeQuery (query : String) : Except AppError String :=
  if query = "" then
    .error (.validationError "Query parameter is required and must be a string")
  else
    let trimmed := jsTrim query
    if trimmed.length = 0 then
      .error (.validationError "Query parameter cannot be empty")
    else if trimmed.length > 100 then
      .error (.validationError "Query parameter too long (max 100 characters)")
    else
      .ok trimmed

/-- The `try { ... makeRequest ... } catch (error) { throw new SaavnApiError(
baseMsg, opName, { ..., error: error.message }) }` wrapper shared by every
catalog operation. -/
def wrapCatalogError (opName : String) (baseMsg : String) (t : CallTrace) : CallTrace :=
  match t.result with
  | .ok _ => t
  | .error e =>
    { t with result := .error (.saavnApiError baseMsg opName (some (errMessage e))) }

/-- The trace of a call that failed validation before reaching `makeRequest`:
zero fetch attempts, no delays. -/
def validationFailureTrace (e : AppError) : CallTrace :=
  { result := .error e, attempts := 0, delays := [] }

/-- `search(query)`: validate, call `makeRequest`, wrap any failure in
`SaavnApiError('Search failed for query: ...', 'search', ...)`.  A
`ValidationError` is thrown before the `try`, so it propagates unwrapped with
zero attempts. -/
def search (cfg : SaavnApiConfig) (env : Nat → AttemptOutcome) (query : String) : CallTrace :=
  match validateAndSanitizeQuery query with
  | .error e => validationFailureTrace e
  | .ok _ => wrapCatalogError "search" ("Search failed for query: " ++ query) (makeRequest cfg env)

/-- `searchSongs(query, page, limit)` (page/limit only enter the URL). -/
def searchSongs (cfg : SaavnApiConfig) (env : Nat → AttemptOutcome) (query : String)
    (_page : Int) (_limit : Int) : CallTrace :=
  match validateAndSanitizeQuery query with
  | .error e => validationFailureTrace e
  | .ok _ =>
    wrapCatalogError "searchSongs" ("Song search failed for query: " ++ query)
      (makeRequest cfg env)

/-- `searchAlbums(query, page, limit)`. -/
def searchAlbums (cfg : SaavnApiConfig) (env : Nat → AttemptOutcome) (query : String)
    (_page : Int) (_limit : Int) : CallTrace :=
  match validateAndSanitizeQuery query with
  | .error e => validationFailureTrace e
  | .ok _ =>
    wrapCatalogError "searchAlbums" ("Album search failed for query: " ++ query)
      (makeRequest cfg env)

/-- `searchArtists(query, page, limit)`. -/
def searchArtists (cfg : SaavnApiConfig) (env : Nat → AttemptOutcome) (query : String)
    (_page : Int) (_limit : Int) : CallTrace :=
  match validateAndSanitizeQuery query with
  | .error e => validationFailureTrace e
  | .ok _ =>
    wrapCatalogError "searchArtists" ("Artist search failed for query: " ++ query)
      (makeRequest cfg env)

/-- `searchPlaylists(query, page, limit)`. -/
def searchPlaylists (cfg : SaavnApiConfig) (env : Nat → AttemptOutcome) (query : String)
    (_page : Int) (_limit : Int) : CallTrace :=
  match validateAndSanitizeQuery query with
  | .error e => validationFailureTrace e
  | .ok _ =>
    wrapCatalogError "searchPlaylists" ("Playlist search failed for query: " ++ query)
      (makeRequest cfg env)

/-! ## Concrete fixtures used by witnesses and counterexamples -/

/-- Fixture track A. -/
def songA : Song := { id := "a", name := "Track A" }

/-- Fixture track B. -/
def songB : Song := { id := "b", name := "Track B" }

/-- Fixture track C. -/
def songC : Song := { id := "c", name := "Track C" }

/-- Fixture track X. -/
def songX : Song := { id := "x", name := "Track X" }

/-- A playing state with queue `[A, B]`, repeat-one and current track X:
the spec's own example for queue-beats-repeat-one. -/
def sQueueRepeatOne : MusicPlayerState :=
  { initialState with
    currentSong := some songX
    queue := [songA, songB]
    «repeat» := RepeatMode.one }

/-- A state whose current track A sits in history but is not the most recent
entry (that is B). -/
def sHistoryMember : MusicPlayerState :=
  { initialState with currentSong := some songA, history := [songA, songB] }

/-- A shuffle-enabled state over a three-track playlist with two candidate
next indices. -/
def sShuffleThree : MusicPlayerState :=
  { initialState with
    currentSong := some songA
    playlist := [songA, songB, songC]
    currentIndex := some 0
    shuffle := true }

/-- A shuffle-enabled state over a one-track playlist at index 0: no candidate
next index exists. -/
def sShuffleOne : MusicPlayerState :=
  { initialState with
    currentSong := some songA
    playlist := [songA]
    currentIndex := some 0
    shuffle := true }

/-- An environment whose every attempt times out. -/
def envTimeout : Nat → AttemptOutcome := fun _ => .abortTimeout

/-- An environment whose every attempt gets an HTTP 500 response. -/
def envServer500 : Nat → AttemptOutcome := fun _ => .httpError 500 none

/-- An environment whose every attempt gets an HTTP 404 response. -/
def envNotFound : Nat → AttemptOutcome := fun _ => .httpError 404 none

/-- An environment whose every attempt succeeds. -/
def envOk : Nat → AttemptOutcome := fun _ => .success "{}"

/-! ## Properties the claims quantify over -/

/-- A call that failed validation before any network activity: the terminal
result is a `ValidationError`, zero fetch attempts were made, and no backoff
delay was slept. -/
def failsValidationBeforeNetwork (t : CallTrace) : Prop :=
  (∃ m, t.result = Except.error (AppError.validationError m)) ∧
    t.attempts = 0 ∧ t.delays = []

/-- An attempt outcome that is a server-side (status ≥ 500) HTTP error or a
non-timeout connection failure — the retryable failures of claim C4. -/
def retryableServerFailure : AttemptOutcome → Prop
  | .httpError s _ => 500 ≤ s
  | .connectionFailure _ => True
  | _ => False

/-! ## Helper lemmas -/

/-- A query that trims to empty or to more than 100 characters is rejected by
`validateAndSanitizeQuery` with a `ValidationError`. -/
theorem validateAndSanitizeQuery_rejects (q : String)
    (h : (jsTrim q).length = 0 ∨ 100 < (jsTrim q).length) :
    ∃ m, validateAndSanitizeQuery q = .error (.validationError m) := by
  unfold validateAndSanitizeQuery
  by_cases hq : q = ""
  · exact ⟨"Query parameter is required and must be a string", by simp [hq]⟩
  · rcases h with h | h
    · exact ⟨"Query parameter cannot be empty", by simp [hq, h]⟩
    · have h0 : ¬(jsTrim q).length = 0 := by omega
      exact ⟨"Query parameter too long (max 100 characters)", by simp [hq, h0, h]⟩

/-- A retryable server-side failure produces an error that the catch block
neither rethrows as a client error nor treats as a timeout. -/
theorem attemptResult_retryable {o : AttemptOutcome} (ho : retryableServerFailure o) :
    ∃ e, attemptResult o = .error e ∧ isNonRetryableClientError e = false ∧
      isAbortError e = false := by
  cases o with
  | httpError s b =>
    refine ⟨_, rfl, ?_, rfl⟩
    have : ¬(400 ≤ s ∧ s < 500) := by
      have := ho
      simp only [retryableServerFailure] at this
      omega
    simp [isNonRetryableClientError, this]
  | connectionFailure m => exact ⟨.jsError "TypeError" m, rfl, rfl, rfl⟩
  | success b => exact absurd ho (by simp [retryableServerFailure])
  | emptyBody s => exact absurd ho (by simp [retryableServerFailure])
  | invalidJson s p => exact absurd ho (by simp [retryableServerFailure])
  | abortTimeout => exact absurd ho (by simp [retryableServerFailure])

/-- A first attempt that comes back with a 4xx response makes `makeRequest`
throw the `ApiResponseError` at once: one attempt, no delays. -/
theorem makeRequest_clientError (cfg : SaavnApiConfig) (env : Nat → AttemptOutcome)
    (s : Nat) (body : Option String) (h4 : 400 ≤ s) (h5 : s < 500)
    (h0 : env 0 = .httpError s body) :
    makeRequest cfg env =
      { result := .error
          (.apiResponseError ("HTTP " ++ toString s ++ ": Request failed") s body)
        attempts := 1
        delays := [] } := by
  have hcl : isNonRetryableClientError
      (.apiResponseError ("HTTP " ++ toString s ++ ": Request failed") s body) = true := by
    simp [isNonRetryableClientError]
    omega
  unfold makeRequest
  rw [makeRequestLoop, h0]
  simp [attemptResult, hcl]

/-- When every attempt fails with a retryable server-side failure, the retry
loop started at `attempt` performs all remaining attempts, sleeps
`retryDelay * 2 ^ i` before each retry, and ends in the terminal
`NetworkError`. -/
theorem makeRequestLoop_allRetryable (cfg : SaavnApiConfig) (env : Nat → AttemptOutcome)
    (hall : ∀ i, retryableServerFailure (env i)) :
    ∀ fuel attempt lastError delays,
      attempt + fuel = cfg.maxRetries + 1 →
      attempt ≤ cfg.maxRetries →
      (makeRequestLoop cfg env attempt fuel lastError delays).attempts =
        cfg.maxRetries + 1 ∧
      (makeRequestLoop cfg env attempt fuel lastError delays).delays =
        delays ++ (List.range' attempt (cfg.maxRetries - attempt)).map
          (fun i => cfg.retryDelay * 2 ^ i) ∧
      ∃ m, (makeRequestLoop cfg env attempt fuel lastError delays).result =
        .error (.networkError
          ("Failed to complete request after " ++ toString (cfg.maxRetries + 1) ++
            " attempts")
          (some m)) := by
  intro fuel
  induction fuel with
  | zero =>
    intro attempt lastError delays hsum hle
    omega
  | succ fuel ih =>
    intro attempt lastError delays hsum hle
    obtain ⟨e, he, hnc, hna⟩ := attemptResult_retryable (hall attempt)
    rw [makeRequestLoop, he]
    simp only [hnc, hna, Bool.false_eq_true, if_false]
    by_cases hlt : attempt < cfg.maxRetries
    · simp only [hlt, if_true]
      have h1 : attempt + 1 + fuel = cfg.maxRetries + 1 := by omega
      have h2 : attempt + 1 ≤ cfg.maxRetries := by omega
      obtain ⟨ha, hd, m, hm⟩ := ih (attempt + 1) (some e) (delays ++ [cfg.retryDelay * 2 ^ attempt]) h1 h2
      refine ⟨ha, ?_, m, hm⟩
      rw [hd]
      have hr : cfg.maxRetries - attempt = (cfg.maxRetries - (attempt + 1)) + 1 := by omega
      rw [hr, List.range'_succ]
      simp
    · simp only [hlt, if_false]
      have ha : attempt = cfg.maxRetries := by omega
      have hr : cfg.maxRetries - attempt = 0 := by omega
      refine ⟨by omega, ?_, errMessage e, ?_⟩
      · simp [hr]
      · simp [exhaustedError]

/-- When every attempt gets the same HTTP response with status ≥ 500, the
retry loop started at `attempt` exhausts the remaining attempts and terminates
in the post-loop `NetworkError`, whose wrapped last error is the 5xx
`ApiResponseError` — recorded only by its message. -/
theorem makeRequestLoop_httpError5xx (cfg : SaavnApiConfig) (env : Nat → AttemptOutcome)
    (s : Nat) (body : Option String) (hs : 500 ≤ s)
    (hall : ∀ i, env i = .httpError s body) :
    ∀ fuel attempt lastError delays,
      attempt + fuel = cfg.maxRetries + 1 →
      attempt ≤ cfg.maxRetries →
      (makeRequestLoop cfg env attempt fuel lastError delays).result =
        .error (.networkError
          ("Failed to complete request after " ++ toString (cfg.maxRetries + 1) ++
            " attempts")
          (some ("HTTP " ++ toString s ++ ": Request failed"))) := by
  intro fuel
  induction fuel with
  | zero =>
    intro attempt lastError delays hsum hle
    omega
  | succ fuel ih =>
    intro attempt lastError delays hsum hle
    have he : attemptResult (env attempt) =
        .error (.apiResponseError ("HTTP " ++ toString s ++ ": Request failed") s body) := by
      rw [hall attempt]; rfl
    have hnc : isNonRetryableClientError
        (.apiResponseError ("HTTP " ++ toString s ++ ": Request failed") s body) = false := by
      simp [isNonRetryableClientError]
      omega
    rw [makeRequestLoop, he]
    simp only [hnc, Bool.false_eq_true, if_false, isAbortError]
    by_cases hlt : attempt < cfg.maxRetries
    · simp only [hlt, if_true]
      exact ih (attempt + 1) _ _ (by omega) (by omega)
    · simp only [hlt, if_false]
      simp [exhaustedError, errMessage]

/-! ## Claim theorems -/

/-- C1, counterexample: with the default configuration (`maxRetries = 3`), a
call whose every attempt times out makes exactly one attempt — not
`maxRetries + 1 = 4` — because `makeRequest` rethrows an `AbortError` as
`NetworkError "Request timeout"` without retrying. -/
theorem timeout_retry_cex :
    (makeRequest DEFAULT_CONFIG envTimeout).attempts = 1 ∧
    (makeRequest DEFAULT_CONFIG envTimeout).attempts ≠ DEFAULT_CONFIG.maxRetries + 1 ∧
    (makeRequest DEFAULT_CONFIG envTimeout).result =
      .error (.networkError "Request timeout" (some "The operation was aborted")) := by
  decide

/-- C1, amended: an attempt that exceeds the timeout and aborts is classified
as a Network error (`NetworkError "Request timeout"` wrapping the abort), but
it is NOT retried: a timing-out call terminates after exactly one attempt with
no backoff delay, for every configuration and whatever the later attempts
would have returned. -/
theorem timeout_not_retried (cfg : SaavnApiConfig) (env : Nat → AttemptOutcome)
    (h0 : env 0 = .abortTimeout) :
    (makeRequest cfg env).attempts = 1 ∧
    (makeRequest cfg env).delays = [] ∧
    (makeRequest cfg env).result =
      .error (.networkError "Request timeout" (some "The operation was aborted")) := by
  unfold makeRequest
  rw [makeRequestLoop, h0]
  simp [attemptResult, isNonRetryableClientError, isAbortError, errMessage]

/-- C1, witness: the amended theorem applied to the default configuration and
a persistently timing-out environment. -/
theorem timeout_not_retried_witness :
    (makeRequest DEFAULT_CONFIG envTimeout).attempts = 1 ∧
    (makeRequest DEFAULT_CONFIG envTimeout).delays = [] ∧
    (makeRequest DEFAULT_CONFIG envTimeout).result =
      .error (.networkError "Request timeout" (some "The operation was aborted")) :=
  timeout_not_retried DEFAULT_CONFIG envTimeout rfl

/-- C3: a response with a 4xx status code makes the client fail at once with
the `ApiResponseError`: exactly one attempt, no backoff delay, no retry. -/
theorem clientError_single_attempt (cfg : SaavnApiConfig) (env : Nat → AttemptOutcome)
    (s : Nat) (body : Option String) (h4 : 400 ≤ s) (h5 : s < 500)
    (h0 : env 0 = .httpError s body) :
    (makeRequest cfg env).attempts = 1 ∧
    (makeRequest cfg env).delays = [] ∧
    (makeRequest cfg env).result =
      .error (.apiResponseError ("HTTP " ++ toString s ++ ": Request failed") s body) := by
  rw [makeRequest_clientError cfg env s body h4 h5 h0]
  exact ⟨rfl, rfl, rfl⟩

/-- C3, witness: a 404 on the default configuration makes exactly one
attempt. -/
theorem clientError_single_attempt_witness :
    (makeRequest DEFAULT_CONFIG envNotFound).attempts = 1 ∧
    (makeRequest DEFAULT_CONFIG envNotFound).delays = [] ∧
    (makeRequest DEFAULT_CONFIG envNotFound).result =
      .error (.apiResponseError "HTTP 404: Request failed" 404 none) :=
  clientError_single_attempt DEFAULT_CONFIG envNotFound 404 none (by decide) (by decide) rfl

/-- C4: when every attempt fails with an HTTP status ≥ 500 or a non-timeout
connection failure, the client makes exactly `maxRetries + 1` attempts, the
inter-attempt delays are `retryDelay * 2 ^ attempt` (the schedule
`D, 2D, 4D, ...`), and the call terminates in the exhausted-retries
`NetworkError`. -/
theorem serverError_retry_schedule (cfg : SaavnApiConfig) (env : Nat → AttemptOutcome)
    (hall : ∀ i, retryableServerFailure (env i)) :
    (makeRequest cfg env).attempts = cfg.maxRetries + 1 ∧
    (makeRequest cfg env).delays =
      (List.range cfg.maxRetries).map (fun i => cfg.retryDelay * 2 ^ i) ∧
    ∃ m, (makeRequest cfg env).result =
      .error (.networkError
        ("Failed to complete request after " ++ toString (cfg.maxRetries + 1) ++
          " attempts")
        (some m)) := by
  have h := makeRequestLoop_allRetryable cfg env hall (cfg.maxRetries + 1) 0 none []
    (by omega) (by omega)
  refine ⟨h.1, ?_, h.2.2⟩
  rw [List.range_eq_range']
  simpa using h.2.1

/-- C4, witness: four attempts and the delay schedule 1000, 2000, 4000 ms for
a persistent HTTP 500 under the default configuration. -/
theorem serverError_retry_schedule_witness :
    (makeRequest DEFAULT_CONFIG envServer500).attempts = 4 ∧
    (makeRequest DEFAULT_CONFIG envServer500).delays = [1000, 2000, 4000] := by
  have h := serverError_retry_schedule DEFAULT_CONFIG envServer500
    (fun i => by simp [envServer500, retryableServerFailure])
  exact ⟨h.1, h.2.1.trans (by decide)⟩

/-- C5: a query that is empty after trimming or longer than 100 characters
after trimming makes every search-family operation (`search`, `searchSongs`,
`searchAlbums`, `searchArtists`, `searchPlaylists`) fail with a
`ValidationError` before any network attempt is made (zero attempts, no
delays), so the failure is never retried. -/
theorem searchFamily_validation_before_network (cfg : SaavnApiConfig)
    (env : Nat → AttemptOutcome) (q : String) (page limit : Int)
    (h : (jsTrim q).length = 0 ∨ 100 < (jsTrim q).length) :
    failsValidationBeforeNetwork (search cfg env q) ∧
    failsValidationBeforeNetwork (searchSongs cfg env q page limit) ∧
    failsValidationBeforeNetwork (searchAlbums cfg env q page limit) ∧
    failsValidationBeforeNetwork (searchArtists cfg env q page limit) ∧
    failsValidationBeforeNetwork (searchPlaylists cfg env q page limit) := by
  obtain ⟨m, hm⟩ := validateAndSanitizeQuery_rejects q h
  refine ⟨?_, ?_, ?_, ?_, ?_⟩ <;>
    exact ⟨⟨m, by simp [search, searchSongs, searchAlbums, searchArtists, searchPlaylists,
      hm, validationFailureTrace]⟩,
      by simp [search, searchSongs, searchAlbums, searchArtists, searchPlaylists,
        hm, validationFailureTrace],
      by simp [search, searchSongs, searchAlbums, searchArtists, searchPlaylists,
        hm, validationFailureTrace]⟩

/-- C5, witness: the whitespace-only query, which trims to empty, fails
validation with zero attempts on all five search-family operations. -/
theorem searchFamily_validation_before_network_witness :
    failsValidationBeforeNetwork (search DEFAULT_CONFIG envOk "   ") ∧
    failsValidationBeforeNetwork (searchSongs DEFAULT_CONFIG envOk "   " 0 10) ∧
    failsValidationBeforeNetwork (searchAlbums DEFAULT_CONFIG envOk "   " 0 10) ∧
    failsValidationBeforeNetwork (searchArtists DEFAULT_CONFIG envOk "   " 0 10) ∧
    failsValidationBeforeNetwork (searchPlaylists DEFAULT_CONFIG envOk "   " 0 10) :=
  searchFamily_validation_before_network DEFAULT_CONFIG envOk "   " 0 10 (Or.inl (by decide))

/-- C9, counterexample: a `search` that terminally fails on an HTTP 404 does
NOT surface an `ApiResponseError` to the caller — the operation's catch block
wraps it into a generic `SaavnApiError`, whose `getUserMessage` is the generic
API-failure text rather than the 404 not-found guidance. -/
theorem catalog_wrap_hides_status_cex :
    search DEFAULT_CONFIG envNotFound "beatles" =
      { result := .error (.saavnApiError "Search failed for query: beatles" "search"
          (some "HTTP 404: Request failed"))
        attempts := 1
        delays := [] } ∧
    getUserMessage (.saavnApiError "Search failed for query: beatles" "search"
      (some "HTTP 404: Request failed")) = "API request failed. Please try again." ∧
    getUserMessage (.saavnApiError "Search failed for query: beatles" "search"
        (some "HTTP 404: Request failed")) ≠
      getUserMessage (.apiResponseError "HTTP 404: Request failed" 404 none) := by
  decide

/-- C9, amended: when a catalog call terminally fails on a non-2xx status,
the status code is carried by an `ApiResponseError` only inside
`makeRequest` — thrown directly for a 4xx (one attempt), while for a status
≥ 500 the retries are exhausted and `makeRequest`'s terminal error is the
`NetworkError` "Failed to complete request after maxRetries + 1 attempts",
which records the status-carrying `ApiResponseError` only by its message.
In both ranges the catalog operation's catch block wraps the failure into a
generic `SaavnApiError` holding only the cause's message, so the error
surfaced to the caller answers `getUserMessage` with the generic
"API request failed. Please try again." whatever the status; the
status-dependent guidance (404, 429, ≥500) exists only on
`ApiResponseError.getUserMessage`, which the caller never receives. -/
theorem catalog_error_wrapping (cfg : SaavnApiConfig) (env : Nat → AttemptOutcome)
    (q sq : String) (s : Nat) (body : Option String)
    (h4 : 400 ≤ s) (hall : ∀ i, env i = .httpError s body)
    (hq : validateAndSanitizeQuery q = .ok sq) :
    (s < 500 →
      (makeRequest cfg env).result =
        .error (.apiResponseError ("HTTP " ++ toString s ++ ": Request failed") s body) ∧
      (search cfg env q).result =
        .error (.saavnApiError ("Search failed for query: " ++ q) "search"
          (some ("HTTP " ++ toString s ++ ": Request failed")))) ∧
    (500 ≤ s →
      (makeRequest cfg env).result =
        .error (.networkError
          ("Failed to complete request after " ++ toString (cfg.maxRetries + 1) ++
            " attempts")
          (some ("HTTP " ++ toString s ++ ": Request failed"))) ∧
      (search cfg env q).result =
        .error (.saavnApiError ("Search failed for query: " ++ q) "search"
          (some ("Failed to complete request after " ++ toString (cfg.maxRetries + 1) ++
            " attempts")))) ∧
    (∀ m op c, getUserMessage (.saavnApiError m op c) =
      "API request failed. Please try again.") := by
  refine ⟨?_, ?_, fun m op c => rfl⟩
  · intro h5
    have hmr := makeRequest_clientError cfg env s body h4 h5 (hall 0)
    refine ⟨by rw [hmr], ?_⟩
    unfold search
    rw [hq, hmr]
    simp [wrapCatalogError, errMessage]
  · intro h5
    have hmr : (makeRequest cfg env).result =
        .error (.networkError
          ("Failed to complete request after " ++ toString (cfg.maxRetries + 1) ++
            " attempts")
          (some ("HTTP " ++ toString s ++ ": Request failed"))) :=
      makeRequestLoop_httpError5xx cfg env s body h5 hall (cfg.maxRetries + 1) 0 none []
        (by omega) (by omega)
    refine ⟨hmr, ?_⟩
    unfold search
    rw [hq]
    simp [wrapCatalogError, hmr, errMessage]

/-- C9, witness: the amended theorem at a 404 and at a persistent 500, both on
the query "beatles". -/
theorem catalog_error_wrapping_witness :
    (makeRequest DEFAULT_CONFIG envNotFound).result =
      .error (.apiResponseError "HTTP 404: Request failed" 404 none) ∧
    (search DEFAULT_CONFIG envNotFound "beatles").result =
      .error (.saavnApiError "Search failed for query: beatles" "search"
        (some "HTTP 404: Request failed")) ∧
    (makeRequest DEFAULT_CONFIG envServer500).result =
      .error (.networkError "Failed to complete request after 4 attempts"
        (some "HTTP 500: Request failed")) ∧
    (search DEFAULT_CONFIG envServer500 "beatles").result =
      .error (.saavnApiError "Search failed for query: beatles" "search"
        (some "Failed to complete request after 4 attempts")) ∧
    getUserMessage (.saavnApiError "Search failed for query: beatles" "search"
      (some "HTTP 404: Request failed")) = "API request failed. Please try again." := by
  have h404 := catalog_error_wrapping DEFAULT_CONFIG envNotFound "beatles" "beatles" 404 none
    (by decide) (fun i => rfl) (by decide)
  have h500 := catalog_error_wrapping DEFAULT_CONFIG envServer500 "beatles" "beatles" 500 none
    (by decide) (fun i => rfl) (by decide)
  obtain ⟨ha, -, -⟩ := h404
  obtain ⟨-, hb, hg⟩ := h500
  obtain ⟨ha1, ha2⟩ := ha (by decide)
  obtain ⟨hb1, hb2⟩ := hb (by decide)
  exact ⟨ha1, ha2, hb1, hb2, hg _ _ _⟩

/-- C2: whenever the queue is non-empty, `NEXT_SONG` dequeues the queue head
as the new current track and leaves `currentIndex` unchanged, regardless of
the repeat mode (in particular under repeat-one); the prior current track,
when it exists, is appended to history (after the 49-element slice that
enforces the cap), and history is untouched when none exists. -/
theorem nextSong_queue_priority (s : MusicPlayerState) (q0 : Song) (qs : List Song)
    (r : Nat) (hq : s.queue = q0 :: qs) :
    (musicPlayerReducer s .nextSong r).currentSong = some q0 ∧
    (musicPlayerReducer s .nextSong r).queue = qs ∧
    (musicPlayerReducer s .nextSong r).currentIndex = s.currentIndex ∧
    (s.currentSong = none → (musicPlayerReducer s .nextSong r).history = s.history) ∧
    (∀ c, s.currentSong = some c →
      (musicPlayerReducer s .nextSong r).history =
        s.history.drop (s.history.length - 49) ++ [c]) := by
  refine ⟨?_, ?_, ?_, ?_, ?_⟩
  · simp [musicPlayerReducer, hq]
  · simp [musicPlayerReducer, hq]
  · simp [musicPlayerReducer, hq]
  · intro hc
    simp [musicPlayerReducer, hq, historyPush, hc]
  · intro c hc
    simp [musicPlayerReducer, hq, historyPush, hc, sliceNeg49]

/-- C2, witness: the spec's own example — queue `[A, B]`, repeat-one, current
track X — plays A, leaves `[B]` queued, keeps the index, and pushes X to
history. -/
theorem nextSong_queue_priority_witness :
    (musicPlayerReducer sQueueRepeatOne .nextSong 0).currentSong = some songA ∧
    (musicPlayerReducer sQueueRepeatOne .nextSong 0).queue = [songB] ∧
    (musicPlayerReducer sQueueRepeatOne .nextSong 0).currentIndex =
      sQueueRepeatOne.currentIndex ∧
    (sQueueRepeatOne.currentSong = none →
      (musicPlayerReducer sQueueRepeatOne .nextSong 0).history = sQueueRepeatOne.history) ∧
    (∀ c, sQueueRepeatOne.currentSong = some c →
      (musicPlayerReducer sQueueRepeatOne .nextSong 0).history =
        sQueueRepeatOne.history.drop (sQueueRepeatOne.history.length - 49) ++ [c]) :=
  nextSong_queue_priority sQueueRepeatOne songA [songB] 0 rfl

/-- C6, counterexample: in a state whose current track A appears in history
`[A, B]` but is not the most recent entry (that is B), `SET_CURRENT_SONG`
performs NO push — the code's guard is `!history.includes(currentSong)`
(membership anywhere), not "is not the most recent entry" — so the claimed
if-and-only-if fails. -/
theorem setCurrentSong_history_cex :
    sHistoryMember.currentSong = some songA ∧
    sHistoryMember.history.getLast? = some songB ∧
    songB ≠ songA ∧
    (musicPlayerReducer sHistoryMember (.setCurrentSong songC none none) 0).history =
      [songA, songB] ∧
    (musicPlayerReducer sHistoryMember (.setCurrentSong songC none none) 0).history ≠
      sHistoryMember.history.drop (sHistoryMember.history.length - 49) ++ [songA] := by
  decide

/-- C6, amended: `SET_CURRENT_SONG` pushes the previous current track onto
history (through the 49-element slice that caps history at 50, dropping the
oldest) if and only if it exists and is not already present ANYWHERE in
history (the code tests `includes`, not just the most recent entry);
`currentTrack`, `playlist` and `currentIndex` are then set to the action's
values, with playlist and index defaulting to the prior state's values when
omitted. -/
theorem setCurrentSong_spec (s : MusicPlayerState) (song : Song)
    (pl : Option (List Song)) (idx : Option Int) (r : Nat) :
    (musicPlayerReducer s (.setCurrentSong song pl idx) r).currentSong = some song ∧
    (musicPlayerReducer s (.setCurrentSong song pl idx) r).playlist = pl.getD s.playlist ∧
    (musicPlayerReducer s (.setCurrentSong song pl idx) r).currentIndex =
      (match idx with | some n => some n | none => s.currentIndex) ∧
    (musicPlayerReducer s (.setCurrentSong song pl idx) r).history =
      (match s.currentSong with
       | some c =>
         if s.history.contains c then s.history
         else s.history.drop (s.history.length - 49) ++ [c]
       | none => s.history) := by
  refine ⟨rfl, rfl, rfl, ?_⟩
  cases hc : s.currentSong with
  | none => simp [musicPlayerReducer, hc]
  | some c => simp [musicPlayerReducer, hc, sliceNeg49]

/-- C7, counterexample: the reducer is NOT deterministic — on a shuffle-enabled
state with an empty queue, repeat ≠ one, and a three-track playlist, two
evaluations of `NEXT_SONG` that consume different `Math.random()` draws
produce different states. -/
theorem reducer_shuffle_nondeterminism_cex :
    sShuffleThree.queue = [] ∧
    sShuffleThree.«repeat» ≠ RepeatMode.one ∧
    sShuffleThree.shuffle = true ∧
    musicPlayerReducer sShuffleThree .nextSong 0 ≠
      musicPlayerReducer sShuffleThree .nextSong 1 := by
  decide

/-- C7, amended: the reducer is deterministic on every action EXCEPT the
shuffle branch of `NEXT_SONG`: whenever the action is not `NEXT_SONG`, or the
queue is non-empty, or the repeat mode is `one`, or shuffle is off, the result
does not depend on the random draw; only `NEXT_SONG` with an empty queue,
repeat ≠ one and shuffle enabled consults `Math.random()`. -/
theorem reducer_deterministic_outside_shuffle (s : MusicPlayerState)
    (a : MusicPlayerAction) (r r' : Nat)
    (h : a = .nextSong →
      s.queue ≠ [] ∨ s.«repeat» = RepeatMode.one ∨ s.shuffle = false) :
    musicPlayerReducer s a r = musicPlayerReducer s a r' := by
  cases a <;> try rfl
  case nextSong =>
    rcases h rfl with hq | hone | hs
    · cases hqe : s.queue with
      | nil => exact absurd hqe hq
      | cons x xs => simp [musicPlayerReducer, hqe]
    · cases hqe : s.queue with
      | nil => simp [musicPlayerReducer, hqe, hone]
      | cons x xs => simp [musicPlayerReducer, hqe]
    · cases hqe : s.queue with
      | nil => simp [musicPlayerReducer, hqe, hs]
      | cons x xs => simp [musicPlayerReducer, hqe]

/-- C7, witness: two different draws give the same result for an action other
than `NEXT_SONG`. -/
theorem reducer_deterministic_outside_shuffle_witness :
    musicPlayerReducer initialState .toggleShuffle 0 =
      musicPlayerReducer initialState .toggleShuffle 99 :=
  reducer_deterministic_outside_shuffle initialState .toggleShuffle 0 99
    (fun h => by cases h)

/-- The 49-element slice never yields more than 49 entries. -/
theorem sliceNeg49_length (l : List Song) : (sliceNeg49 l).length ≤ 49 := by
  simp [sliceNeg49]
  omega

/-- `NEXT_SONG`'s history push keeps history within 50 entries. -/
theorem historyPush_length (s : MusicPlayerState) (h : s.history.length ≤ 50) :
    (historyPush s).length ≤ 50 := by
  cases hc : s.currentSong with
  | none => simpa [historyPush, hc] using h
  | some c =>
    have := sliceNeg49_length s.history
    simp [historyPush, hc]
    omega

/-- C8: every reducer action maps a state whose history has at most 50
entries to a state whose history has at most 50 entries; since the initial
state's history is empty, history is bounded by 50 along every action
sequence, in particular after 100 sequential `SET_CURRENT_SONG` actions. -/
theorem history_bounded (s : MusicPlayerState) (a : MusicPlayerAction) (r : Nat)
    (h : s.history.length ≤ 50) :
    (musicPlayerReducer s a r).history.length ≤ 50 := by
  have hp := historyPush_length s h
  have hs49 := sliceNeg49_length s.history
  cases a with
  | setCurrentSong song pl idx =>
    cases hc : s.currentSong with
    | none => simpa [musicPlayerReducer, hc] using h
    | some c =>
      by_cases hm : c ∈ s.history
      · simpa [musicPlayerReducer, hc, hm] using h
      · simp [musicPlayerReducer, hc, hm]
        omega
  | setPlaylist pl idx => simpa [musicPlayerReducer] using h
  | nextSong =>
    cases hqe : s.queue with
    | cons x xs => simpa [musicPlayerReducer, hqe] using hp
    | nil =>
      by_cases hone : s.«repeat» = RepeatMode.one
      · simpa [musicPlayerReducer, hqe, hone] using h
      · by_cases hsh : s.shuffle
        · simpa [musicPlayerReducer, hqe, hone, hsh] using hp
        · by_cases hge : jsGE (jsSucc s.currentIndex) s.playlist.length
          · by_cases hall : s.«repeat» = RepeatMode.all
            · simpa [musicPlayerReducer, hqe, hone, hsh, hge, hall] using hp
            · simpa [musicPlayerReducer, hqe, hone, hsh, hge, hall] using h
          · simpa [musicPlayerReducer, hqe, hone, hsh, hge] using hp
  | previousSong =>
    cases hl : s.history.getLast? with
    | some p =>
      have : s.history.dropLast.length ≤ 50 := by
        simp [List.length_dropLast]
        omega
      simpa [musicPlayerReducer, hl] using this
    | none =>
      by_cases hlt : jsLT0 (jsPred s.currentIndex)
      · by_cases hall : s.«repeat» = RepeatMode.all
        · simpa [musicPlayerReducer, hl, hlt, hall] using h
        · simpa [musicPlayerReducer, hl, hlt, hall] using h
      · simpa [musicPlayerReducer, hl, hlt] using h
  | setPlaying b => simpa [musicPlayerReducer] using h
  | addToQueue song => simpa [musicPlayerReducer] using h
  | removeFromQueue k => simpa [musicPlayerReducer] using h
  | clearQueue => simpa [musicPlayerReducer] using h
  | setRepeat mode => simpa [musicPlayerReducer] using h
  | toggleShuffle => simpa [musicPlayerReducer] using h
  | clearPlayer => simp [musicPlayerReducer, initialState]

/-- C8, witness: the bound holds at the initial state for a concrete
`SET_CURRENT_SONG`. -/
theorem history_bounded_witness :
    initialState.history.length ≤ 50 ∧
    (musicPlayerReducer initialState (.setCurrentSong songA none none) 0).history.length ≤
      50 :=
  ⟨by decide, history_bounded initialState (.setCurrentSong songA none none) 0 (by decide)⟩

/-- C10: with an empty queue, repeat ≠ one, shuffle enabled, and a playlist
offering no index other than `currentIndex` (an empty playlist, or a
one-track playlist at index 0), `NEXT_SONG` ends with no current track
(`currentTrack = null`) and `currentIndex` holding no valid playlist position
(the JS `undefined` produced by indexing the empty candidate array). -/
theorem nextSong_shuffle_exhausted (s : MusicPlayerState) (r : Nat)
    (hq : s.queue = []) (hone : s.«repeat» ≠ RepeatMode.one) (hs : s.shuffle = true)
    (hp : s.playlist = [] ∨ (s.playlist.length = 1 ∧ s.currentIndex = some 0)) :
    (musicPlayerReducer s .nextSong r).currentSong = none ∧
    (musicPlayerReducer s .nextSong r).currentIndex = none := by
  have hai : availableIndices s = [] := by
    rcases hp with hp | ⟨hl, hi⟩
    · simp [availableIndices, hp]
    · simp [availableIndices, hl, hi, List.range_succ]
  have hpick : shufflePick s r = none := by simp [shufflePick, hai]
  constructor
  · simp [musicPlayerReducer, hq, hone, hs, hpick, jsIndex]
  · simp [musicPlayerReducer, hq, hone, hs, hpick]

/-- C10, witness: a one-track playlist at index 0 with shuffle on. -/
theorem nextSong_shuffle_exhausted_witness :
    (musicPlayerReducer sShuffleOne .nextSong 5).currentSong = none ∧
    (musicPlayerReducer sShuffleOne .nextSong 5).currentIndex = none :=
  nextSong_shuffle_exhausted sShuffleOne 5 rfl (by decide) rfl
    (Or.inr ⟨rfl, rfl⟩)
